import Mathlib

/-!
Verification of the analysis orchestration engine of the karaoke judging
service (backend + worker).  The definitions below are shallow embeddings of
the Python source: JSON session records become association lists from field
names to string payloads, Redis becomes an association list from keys to
entries carrying an optional TTL, machine floats become exact rationals, and
external effects (LLM calls, HTTP attempts, GPU work) become explicit oracle
parameters describing each call's outcome.
-/

/-- First-match lookup in an association list, as Python dict `get`
(dict keys are unique, so first match is the only match). -/
def alookup {β : Type} : List (String × β) → String → Option β
  | [], _ => none
  | (k', v) :: rest, k => if k' = k then some v else alookup rest k

/-- Dict assignment `d[k] = v`: replace the binding of `k` if present,
append it otherwise. -/
def aset {β : Type} : List (String × β) → String → β → List (String × β)
  | [], k, v => [(k, v)]
  | (k', v') :: rest, k, v =>
      if k' = k then (k, v) :: rest else (k', v') :: aset rest k v

/-- The Lua loop `for k, v in pairs(updates) do data[k] = v end` of
`RedisClient._UPDATE_LUA` (src/backend/app/services/redis_client.py):
field-wise overlay of `updates` onto `data`. -/
def luaMerge {β : Type} (data updates : List (String × β)) : List (String × β) :=
  updates.foldl (fun d kv => aset d kv.1 kv.2) data

theorem alookup_aset {β : Type} (d : List (String × β)) (k f : String) (v : β) :
    alookup (aset d k v) f = if f = k then some v else alookup d f := by
  induction d with
  | nil =>
      rcases eq_or_ne f k with h | h
      · subst h
        simp [aset, alookup]
      · simp [aset, alookup, h, Ne.symm h]
  | cons hd tl ih =>
      obtain ⟨k', v'⟩ := hd
      by_cases hk : k' = k
      · subst hk
        rcases eq_or_ne f k' with h | h
        · subst h
          simp [aset, alookup]
        · simp [aset, alookup, h, Ne.symm h]
      · rcases eq_or_ne k' f with h | h
        · subst h
          simp [aset, alookup, hk, fun hh : k' = k => hk hh]
        · simp [aset, alookup, hk, h, ih]

theorem alookup_eq_none_of_not_mem {β : Type} (l : List (String × β)) (k : String)
    (h : k ∉ l.map Prod.fst) : alookup l k = none := by
  induction l with
  | nil => rfl
  | cons hd tl ih =>
      obtain ⟨k', v'⟩ := hd
      simp only [List.map_cons, List.mem_cons, not_or] at h
      have hne : ¬ (k' = k) := fun hh => h.1 hh.symm
      simp only [alookup, if_neg hne]
      exact ih h.2

theorem alookup_luaMerge {β : Type} (u : List (String × β))
    (hu : (u.map Prod.fst).Nodup) (d : List (String × β)) (f : String) :
    alookup (luaMerge d u) f =
      match alookup u f with
      | some v => some v
      | none => alookup d f := by
  induction u generalizing d with
  | nil => simp [luaMerge, alookup]
  | cons hd tl ih =>
      obtain ⟨k, v⟩ := hd
      simp only [List.map_cons, List.nodup_cons] at hu
      have htl := ih hu.2 (aset d k v)
      simp only [luaMerge, List.foldl_cons] at *
      by_cases h : f = k
      · subst h
        have hnone : alookup tl f = none := alookup_eq_none_of_not_mem tl f hu.1
        rw [htl, hnone, alookup_aset]
        simp [alookup]
      · rw [htl, alookup_aset, if_neg h]
        have hkf : ¬ (k = f) := fun hh => h hh.symm
        simp [alookup, hkf]

/-- A live Redis value holding a session JSON document.  `ttl = none`
models a key without expiry (the `TTL` command answers `-1`); `ttl = some t`
models a live key whose `TTL` command reads `t` seconds — Redis rounds the
remaining milliseconds to the nearest second, so a live key in its final
half-second reads `0`. -/
structure RedisEntry where
  data : List (String × String)
  ttl : Option Nat
deriving DecidableEq

/-- The Redis keyspace (expired keys are simply absent). -/
abbrev RedisStore := List (String × RedisEntry)

/-- `GET key` (nil for absent keys). -/
def rget (store : RedisStore) (key : String) : Option RedisEntry :=
  alookup store key

/-- `SETEX key t data`. -/
def rsetex (store : RedisStore) (key : String) (data : List (String × String))
    (t : Nat) : RedisStore :=
  aset store key ⟨data, some t⟩

/-- Result of the `TTL key` command on a live key: `-1` when the key has
no expiry, the rounded remaining seconds otherwise (`0` when less than half
a second remains). -/
def ttlCmd (e : RedisEntry) : Int :=
  match e.ttl with
  | none => -1
  | some t => t

/-- `RedisClient.update_session` (src/backend/app/services/redis_client.py):
runs the `_UPDATE_LUA` script.  `GET` the session JSON; if absent, answer
`0` (returned to Python as `False`) without writing; otherwise overlay the
updates field-wise, read the remaining TTL, substitute the fallback
`3600` when `TTL < 1`, and `SETEX` the merged document back. -/
def update_session (store : RedisStore) (session_id : String)
    (updates : List (String × String)) : RedisStore × Bool :=
  let key := "session:" ++ session_id
  match rget store key with
  | none => (store, false)
  | some e =>
      let data := luaMerge e.data updates
      let ttl : Int := ttlCmd e
      let ttl' : Int := if ttl < 1 then 3600 else ttl
      (rsetex store key data ttl'.toNat, true)

theorem rget_rsetex_same (store : RedisStore) (key : String)
    (data : List (String × String)) (t : Nat) :
    rget (rsetex store key data t) key = some ⟨data, some t⟩ := by
  simp [rget, rsetex, alookup_aset]

/-- Claim C4 counterexample: a live session key in its final half-second —
its `TTL` command reads `0` — is patched, and the Lua fallback `ttl < 1`
fires: the record is written back with a fresh 3600 s TTL.  The key carried
a TTL, yet the 1-hour fallback applied and the remaining TTL increased from
under a second to an hour, against both TTL conclusions of the claim. -/
theorem update_session_ttl_zero_counterexample :
    rget (update_session
        [("session:s0", RedisEntry.mk [("status", "created")] (some 0))]
        "s0" [("status", "analysing")]).1 "session:s0" =
      some (RedisEntry.mk [("status", "analysing")] (some 3600)) ∧
    (RedisEntry.mk ([("status", "created")] : List (String × String)) (some 0)).ttl =
      some 0 ∧
    (0 : Nat) < 3600 := by
  refine ⟨?_, rfl, by decide⟩
  decide

/-- Claim C4 (amended): merging a patch into a live session overlays the
patch field-wise onto the prior record; the remaining TTL is preserved
whenever the `TTL` command reads at least one second; and the 1-hour
fallback is applied exactly when the command reads below 1 — the key
carries no TTL (reads `-1`) or is a live key in its final half-second
(reads `0`), in which case the remaining TTL does increase. -/
theorem update_session_merge_spec (store : RedisStore) (sid : String)
    (patch : List (String × String)) (e : RedisEntry)
    (hget : rget store ("session:" ++ sid) = some e)
    (hnodup : (patch.map Prod.fst).Nodup) :
    (update_session store sid patch).2 = true ∧
    ∃ e', rget (update_session store sid patch).1 ("session:" ++ sid) = some e' ∧
      (∀ f v, alookup patch f = some v → alookup e'.data f = some v) ∧
      (∀ f, alookup patch f = none → alookup e'.data f = alookup e.data f) ∧
      (∀ t, e.ttl = some t → 1 ≤ t → e'.ttl = some t) ∧
      ((e.ttl = none ∨ e.ttl = some 0) → e'.ttl = some 3600) := by
  have hmerge := fun f => alookup_luaMerge patch hnodup e.data f
  cases he : e.ttl with
  | none =>
      refine ⟨by simp [update_session, hget], ⟨luaMerge e.data patch, some 3600⟩, ?_, ?_, ?_, ?_, ?_⟩
      · simp [update_session, hget, ttlCmd, he, rget_rsetex_same]
      · intro f v hv
        have := hmerge f
        rw [hv] at this
        simpa using this
      · intro f hv
        have := hmerge f
        rw [hv] at this
        simpa using this
      · intro t ht
        exact Option.noConfusion ht
      · intro _
        rfl
  | some t =>
      by_cases ht0 : t = 0
      · subst ht0
        refine ⟨by simp [update_session, hget], ⟨luaMerge e.data patch, some 3600⟩, ?_, ?_, ?_, ?_, ?_⟩
        · simp [update_session, hget, ttlCmd, he, rget_rsetex_same]
        · intro f v hv
          have := hmerge f
          rw [hv] at this
          simpa using this
        · intro f hv
          have := hmerge f
          rw [hv] at this
          simpa using this
        · intro t' ht' h1
          injection ht' with hh
          subst hh
          exact absurd h1 (by decide)
        · intro _
          rfl
      · have ht1 : 1 ≤ t := Nat.one_le_iff_ne_zero.mpr ht0
        have hnotlt : ¬ ((t : Int) < 1) := by exact_mod_cast Nat.not_lt.mpr ht1
        refine ⟨by simp [update_session, hget], ⟨luaMerge e.data patch, some t⟩, ?_, ?_, ?_, ?_, ?_⟩
        · simp [update_session, hget, ttlCmd, he, hnotlt, rget_rsetex_same]
        · intro f v hv
          have := hmerge f
          rw [hv] at this
          simpa using this
        · intro f hv
          have := hmerge f
          rw [hv] at this
          simpa using this
        · intro t' ht' _
          exact ht'
        · rintro (hnone | h0)
          · exact Option.noConfusion hnone
          · injection h0 with hh
            exact absurd hh ht0

/-- Witness for C4's amended statement at a concrete store: a session with
two fields and a 2-minute TTL, patched on one old and one new field. -/
theorem update_session_merge_spec_witness :
    (update_session [("session:s1", ⟨[("status", "created"), ("track", "abba")], some 120⟩)]
      "s1" [("status", "analysing"), ("task", "t9")]).2 = true := by
  have h := update_session_merge_spec
    [("session:s1", ⟨[("status", "created"), ("track", "abba")], some 120⟩)]
    "s1" [("status", "analysing"), ("task", "t9")]
    ⟨[("status", "created"), ("track", "abba")], some 120⟩
    (by decide) (by decide)
  exact h.1

/-- Claim C9: merging into an absent (or expired, hence absent) session id
writes nothing and answers `false`; the Lua script bails out with `0`
before any `SETEX`. -/
theorem update_session_absent_no_write (store : RedisStore) (sid : String)
    (patch : List (String × String))
    (habs : rget store ("session:" ++ sid) = none) :
    update_session store sid patch = (store, false) := by
  simp [update_session, habs]

/-- Witness for C9: the empty keyspace holds no session. -/
theorem update_session_absent_no_write_witness :
    update_session [] "gone" [("status", "error")] = ([], false) :=
  update_session_absent_no_write [] "gone" [("status", "error")] (by decide)

/-- The `except` branch of `analyze_performance` (src/worker/tasks/pipeline.py):
re-read the session JSON; when it is still present, set `status = error` and a
short error summary built from the exception class name, and write it back
with a fresh 1-hour TTL.  When the session key is gone (or Redis fails) the
branch does nothing; the exception is re-raised either way. -/
def markSessionError (store : RedisStore) (sid excName : String) : RedisStore :=
  match rget store ("session:" ++ sid) with
  | none => store
  | some e =>
      rsetex store ("session:" ++ sid)
        (aset (aset e.data "status" "error") "error" ("Analyse échouée : " ++ excName)) 3600

/-- Control skeleton of `analyze_performance`: the task body either returns a
result or raises; on raise the except branch marks the session and the
exception propagates (`raise` re-raises to Celery). -/
def analyze_performance_outcome {α : Type} (store : RedisStore) (sid : String)
    (body : Except String α) : RedisStore × Except String α :=
  match body with
  | .ok v => (store, .ok v)
  | .error excName => (markSessionError store sid excName, .error excName)

/-- Control skeleton of `prepare_reference`: its `try` block carries only a
`finally` clause (temp-dir removal, outside the session store), no `except`
clause, so the session store is untouched on both the success and the raise
path and the exception propagates unchanged. -/
def prepare_reference_outcome {α : Type} (store : RedisStore) (sid : String)
    (body : Except String α) : RedisStore × Except String α :=
  (store, body)

/-- Claim C3 counterexample: a failing `prepare_reference` run re-raises but
leaves the session record exactly as it was — its status stays `preparing`
and no error summary is written, contradicting the claim that every failing
pipeline run first marks the session with `status = error`. -/
theorem prepare_reference_error_counterexample :
    prepare_reference_outcome
        [("session:s1", RedisEntry.mk [("status", "preparing")] (some 600))] "s1"
        (Except.error "RuntimeError" : Except String Unit) =
      ([("session:s1", RedisEntry.mk [("status", "preparing")] (some 600))],
        Except.error "RuntimeError") ∧
    alookup (RedisEntry.mk [("status", "preparing")] (some 600)).data "status" ≠
      some "error" :=
  ⟨rfl, by decide⟩

/-- Claim C3 (amended): only the performance-analysis pipeline marks the
session on failure — when its session record still exists it is rewritten
with `status = error` and an error summary before the exception is
re-raised — while the reference-preparation pipeline re-raises without
touching the session store at all. -/
theorem pipeline_error_reporting (α : Type) (store : RedisStore) (sid e : String)
    (ent : RedisEntry) (hget : rget store ("session:" ++ sid) = some ent) :
    (analyze_performance_outcome store sid (Except.error e : Except String α)).2
        = Except.error e ∧
    (∃ ent', rget (analyze_performance_outcome store sid
          (Except.error e : Except String α)).1 ("session:" ++ sid) = some ent' ∧
        alookup ent'.data "status" = some "error" ∧
        alookup ent'.data "error" = some ("Analyse échouée : " ++ e) ∧
        ent'.ttl = some 3600) ∧
    prepare_reference_outcome store sid (Except.error e : Except String α)
        = (store, Except.error e) := by
  refine ⟨rfl, ?_, rfl⟩
  refine ⟨⟨aset (aset ent.data "status" "error") "error" ("Analyse échouée : " ++ e),
    some 3600⟩, ?_, ?_, ?_, rfl⟩
  · simp [analyze_performance_outcome, markSessionError, hget, rget_rsetex_same]
  · rw [alookup_aset, if_neg (by decide), alookup_aset, if_pos rfl]
  · rw [alookup_aset, if_pos rfl]

/-- Witness for C3 at a concrete store: an analysing session whose pipeline
raises `ValueError`. -/
theorem pipeline_error_reporting_witness :
    (analyze_performance_outcome
        [("session:s2", RedisEntry.mk [("status", "analysing")] (some 900))] "s2"
        (Except.error "ValueError" : Except String Unit)).2 = Except.error "ValueError" :=
  (pipeline_error_reporting Unit
    [("session:s2", RedisEntry.mk [("status", "analysing")] (some 900))] "s2" "ValueError"
    ⟨[("status", "analysing")], some 900⟩ (by decide)).1

/-- Python `int()` on a finite float: truncation toward zero. -/
def pyInt (q : ℚ) : ℤ :=
  if 0 ≤ q then ⌊q⌋ else ⌈q⌉

/-- The aggregate of `do_generate_feedback` (src/worker/tasks/scoring.py):
`int(pitch_accuracy * 0.4 + rhythm_accuracy * 0.3 + lyrics_accuracy * 0.3)`,
with the float weights modelled by the exact rationals they denote. -/
def overall_score_of (pitch_accuracy rhythm_accuracy lyrics_accuracy : ℚ) : ℤ :=
  pyInt (pitch_accuracy * (2 / 5) + rhythm_accuracy * (3 / 10) + lyrics_accuracy * (3 / 10))

/-- One of the three judge personas of src/worker/tasks/scoring.py. -/
structure Persona where
  name : String
  style : String
deriving DecidableEq

def JURY_PERSONAS : List Persona :=
  [⟨"Le Cassant", "impitoyable mais juste, utilise des métaphores drôles et cinglantes"⟩,
   ⟨"L'Encourageant", "bienveillant, trouve toujours du positif même dans les pires performances"⟩,
   ⟨"Le Technique", "précis et analytique, parle de technique vocale"⟩]

/-- `_get_vote`: vote from the aggregate score and the persona personality. -/
def _get_vote (persona_name : String) (overall_score : ℤ) : String :=
  if persona_name = "Le Cassant" then
    if 70 ≤ overall_score then "yes" else "no"
  else if persona_name = "L'Encourageant" then
    if 40 ≤ overall_score then "yes" else "no"
  else
    if 55 ≤ overall_score then "yes" else "no"

/-- `_heuristic_comment`: the hard-coded tier-3 comment, keyed on the persona
name and the aggregate-score range. -/
def _heuristic_comment (persona_name : String) (overall_score : ℤ) : String :=
  if persona_name = "Le Cassant" then
    if 70 ≤ overall_score then
      "Pas mal du tout ! Tu as du potentiel, mais ne te repose pas sur tes lauriers."
    else
      "Il y a du travail... Beaucoup de travail. Mais au moins tu as eu le courage de monter sur scène."
  else if persona_name = "L'Encourageant" then
    if 50 ≤ overall_score then
      "Bravo pour cette prestation ! On sent que tu y as mis du cœur, continue comme ça !"
    else
      "L'important c'est de participer ! Tu as osé et c'est déjà une victoire. Continue à travailler !"
  else
    if 60 ≤ overall_score then
      "Techniquement, il y a de bonnes bases. Travaille la justesse et le placement pour progresser."
    else
      "Quelques points techniques à revoir : la justesse et le rythme nécessitent plus de travail."

/-- One judge record of the result bundle (the latency field, pure wall-clock
measurement, is not modelled). -/
structure JuryRecord where
  persona : String
  comment : String
  vote : String
  model : String
deriving DecidableEq

/-- `_generate_comment_async` (src/worker/tasks/scoring.py): the 3-tier
fallback for one persona.  The two LLM tiers are oracles giving the
`(comment, model_used)` pair each `_litellm_call` returns — `("", "")` when
the call failed after its retries.  Tier 2 is consulted only when tier 1
produced no comment and the fallback model differs from the primary
(`fallback_distinct`); the heuristic tier fires when no LLM comment exists. -/
def _generate_comment_async (tier1 tier2 : Persona → String × String)
    (fallback_distinct : Bool) (persona : Persona) (overall_score : ℤ) : JuryRecord :=
  let r1 := tier1 persona
  let r2 := if r1.1 = "" then (if fallback_distinct then tier2 persona else r1) else r1
  let r3 := if r2.1 = "" then (_heuristic_comment persona.name overall_score, "heuristic") else r2
  { persona := persona.name
    comment := r3.1
    vote := _get_vote persona.name overall_score
    model := r3.2 }

/-- `generate_jury_comments`: one record per persona (the three calls run
concurrently in the source and are independent, so the gathered list equals
the per-persona map). -/
def generate_jury_comments (tier1 tier2 : Persona → String × String)
    (fallback_distinct : Bool) (overall_score : ℤ) : List JuryRecord :=
  JURY_PERSONAS.map (fun p => _generate_comment_async tier1 tier2 fallback_distinct p overall_score)

/-- The result dict assembled by `do_generate_feedback`; session paths and
the on-disk results.json write are outside the model. -/
structure ScoreBundle where
  score : ℤ
  pitch_accuracy : ℚ
  rhythm_accuracy : ℚ
  lyrics_accuracy : ℚ
  jury_comments : List JuryRecord
  warnings : List String

/-- Assembly of `do_generate_feedback` from the three component scores (the
numeric pitch/rhythm/lyrics calculators run over numpy arrays upstream of
this point), the collected warnings, and the jury-tier oracles. -/
def do_generate_feedback (tier1 tier2 : Persona → String × String)
    (fallback_distinct : Bool) (pitch_accuracy rhythm_accuracy lyrics_accuracy : ℚ)
    (warnings : List String) : ScoreBundle :=
  let overall := overall_score_of pitch_accuracy rhythm_accuracy lyrics_accuracy
  { score := overall
    pitch_accuracy := pitch_accuracy
    rhythm_accuracy := rhythm_accuracy
    lyrics_accuracy := lyrics_accuracy
    jury_comments := generate_jury_comments tier1 tier2 fallback_distinct overall
    warnings := warnings }

/-- Oracle for a jury LLM tier whose every call fails. -/
def juryTierFail : Persona → String × String := fun _ => ("", "")

/-- Claim C1 counterexample: at component scores (99, 100, 100) the weighted
sum is 99.6; the bundle's aggregate is 99 (Python `int()` truncates) while
rounding to the nearest integer gives 100, so the aggregate is not the
rounded weighted sum. -/
theorem aggregate_not_round_counterexample :
    (do_generate_feedback juryTierFail juryTierFail true 99 100 100 []).score ≠
      round ((99 : ℚ) * (2 / 5) + 100 * (3 / 10) + 100 * (3 / 10)) := by
  have h1 : (do_generate_feedback juryTierFail juryTierFail true 99 100 100 []).score = 99 := by
    norm_num [do_generate_feedback, overall_score_of, pyInt]
  have h2 : round ((99 : ℚ) * (2 / 5) + 100 * (3 / 10) + 100 * (3 / 10)) = 100 := by
    norm_num [round_eq]
  rw [h1, h2]
  decide

/-- Claim C1 (amended): for nonnegative component scores the aggregate in the
result bundle is the weighted sum `0.4·p + 0.3·r + 0.3·l` truncated toward
zero (= its floor), not rounded to the nearest integer. -/
theorem aggregate_score_truncates (tier1 tier2 : Persona → String × String)
    (fallback_distinct : Bool) (p r l : ℚ) (w : List String)
    (hp : 0 ≤ p) (hr : 0 ≤ r) (hl : 0 ≤ l) :
    (do_generate_feedback tier1 tier2 fallback_distinct p r l w).score =
      ⌊p * (2 / 5) + r * (3 / 10) + l * (3 / 10)⌋ := by
  have hsum : 0 ≤ p * (2 / 5) + r * (3 / 10) + l * (3 / 10) := by positivity
  simp [do_generate_feedback, overall_score_of, pyInt, hsum]

/-- Witness for C1's amended statement at scores (99, 100, 100): truncation
yields 99. -/
theorem aggregate_score_truncates_witness :
    (do_generate_feedback juryTierFail juryTierFail true 99 100 100 []).score = 99 := by
  have h := aggregate_score_truncates juryTierFail juryTierFail true 99 100 100 []
    (by norm_num) (by norm_num) (by norm_num)
  rw [h]
  norm_num

/-- The heuristic tier never produces an empty comment. -/
theorem heuristic_comment_ne_empty (persona_name : String) (s : ℤ) :
    _heuristic_comment persona_name s ≠ "" := by
  unfold _heuristic_comment
  split
  · split <;> decide
  · split
    · split <;> decide
    · split <;> decide

/-- Claim C7: for every outcome of the two LLM tiers, jury generation yields
exactly three records, one per persona in order, each carrying a non-empty
comment — when both tiers return no comment the heuristic tier supplies one. -/
theorem generate_jury_comments_total (tier1 tier2 : Persona → String × String)
    (fallback_distinct : Bool) (s : ℤ) :
    (generate_jury_comments tier1 tier2 fallback_distinct s).length = 3 ∧
    (generate_jury_comments tier1 tier2 fallback_distinct s).map JuryRecord.persona =
      JURY_PERSONAS.map Persona.name ∧
    ∀ j ∈ generate_jury_comments tier1 tier2 fallback_distinct s, j.comment ≠ "" := by
  refine ⟨by simp [generate_jury_comments, JURY_PERSONAS],
    by simp [generate_jury_comments, _generate_comment_async], ?_⟩
  intro j hj
  simp only [generate_jury_comments, List.mem_map] at hj
  obtain ⟨p, _, hp⟩ := hj
  subst hp
  unfold _generate_comment_async
  by_cases h1 : (tier1 p).1 = ""
  · by_cases hfd : fallback_distinct
    · by_cases h2 : (tier2 p).1 = ""
      · simp [h1, hfd, h2, heuristic_comment_ne_empty]
      · simp [h1, hfd, h2]
    · simp [h1, hfd, heuristic_comment_ne_empty]
  · simp [h1]

/-- Witness for C7 with both LLM tiers failing on every call: three records
come back and the first one carries the Cassant heuristic comment, which is
non-empty. -/
theorem generate_jury_comments_total_witness :
    (generate_jury_comments juryTierFail juryTierFail true 42).length = 3 ∧
    JuryRecord.mk "Le Cassant"
        "Il y a du travail... Beaucoup de travail. Mais au moins tu as eu le courage de monter sur scène."
        "no" "heuristic" ∈ generate_jury_comments juryTierFail juryTierFail true 42 ∧
    JuryRecord.comment (JuryRecord.mk "Le Cassant"
        "Il y a du travail... Beaucoup de travail. Mais au moins tu as eu le courage de monter sur scène."
        "no" "heuristic") ≠ "" := by
  refine ⟨(generate_jury_comments_total juryTierFail juryTierFail true 42).1, ?_, ?_⟩
  · decide
  · exact (generate_jury_comments_total juryTierFail juryTierFail true 42).2.2 _ (by decide)

/-- Outcome of one HTTP POST to `/api/upload.php` inside `StorageClient.upload`
(src/worker/tasks/storage_client.py): a non-error response carrying the public
URL, a network/timeout failure (`httpx.TimeoutException` / `NetworkError`), or
an HTTP error status (`HTTPStatusError`). -/
inductive AttemptOutcome where
  | success (url : String)
  | network
  | status (code : Nat)
deriving DecidableEq

def _UPLOAD_RETRYABLE_STATUS : List Nat := [429, 500, 502, 503, 504]

/-- The `retryable` test of the except branch: network errors always, status
errors only for codes in `_UPLOAD_RETRYABLE_STATUS`. -/
def retryableStatus (code : Nat) : Bool :=
  _UPLOAD_RETRYABLE_STATUS.contains code

def retryFail : AttemptOutcome → Bool
  | .success _ => false
  | .network => true
  | .status c => retryableStatus c

inductive UploadError where
  | network
  | status (code : Nat)
deriving DecidableEq

def failErr : AttemptOutcome → Option UploadError
  | .success _ => none
  | .network => some .network
  | .status c => some (.status c)

def _UPLOAD_ATTEMPTS : Nat := 3

/-- What a run of `StorageClient.upload` did: the returned URL or the raised
error, how many POSTs were issued, and the backoff sleeps performed (in
seconds). -/
structure UploadTrace where
  result : Except UploadError String
  attemptsUsed : Nat
  sleeps : List ℚ

/-- The `for attempt in range(1, _UPLOAD_ATTEMPTS + 1)` loop of
`StorageClient.upload`, attempt outcomes supplied by the oracle.  A success
returns the URL; a failure re-raises at once when it is not retryable or the
attempts are exhausted, and otherwise sleeps `1.5 * 2 ** (attempt - 1)`
seconds and tries again.  The `remaining = 0` case is the dead
`assert last_exc is not None; raise last_exc` tail after the loop. -/
def uploadLoop (oracle : Nat → AttemptOutcome) (attempt : Nat) :
    Nat → UploadTrace
  | 0 => ⟨Except.error UploadError.network, attempt - 1, []⟩
  | remaining + 1 =>
      match oracle attempt with
      | .success url => ⟨Except.ok url, attempt, []⟩
      | .network =>
          if attempt = _UPLOAD_ATTEMPTS then ⟨Except.error UploadError.network, attempt, []⟩
          else
            let t := uploadLoop oracle (attempt + 1) remaining
            ⟨t.result, t.attemptsUsed, (3 / 2) * 2 ^ (attempt - 1) :: t.sleeps⟩
      | .status c =>
          if retryableStatus c then
            if attempt = _UPLOAD_ATTEMPTS then ⟨Except.error (UploadError.status c), attempt, []⟩
            else
              let t := uploadLoop oracle (attempt + 1) remaining
              ⟨t.result, t.attemptsUsed, (3 / 2) * 2 ^ (attempt - 1) :: t.sleeps⟩
          else ⟨Except.error (UploadError.status c), attempt, []⟩

/-- `StorageClient.upload` entered at attempt 1 with 3 attempts available. -/
def upload (oracle : Nat → AttemptOutcome) : UploadTrace :=
  uploadLoop oracle 1 _UPLOAD_ATTEMPTS

/-- Claim C5: `upload` makes at most three POSTs; its backoff sleeps are an
initial segment of 1.5 s, 3 s (1.5·2ⁿ for n = 0, 1); a non-retryable HTTP
error at attempt 1 or 2 raises at once with no further attempt and no further
sleep; and when all three attempts fail it raises the error of the last
attempt after sleeping 1.5 s and 3 s. -/
theorem upload_retry_policy (oracle : Nat → AttemptOutcome) :
    (upload oracle).attemptsUsed ≤ 3 ∧
    (upload oracle).sleeps <+: [(3 : ℚ) / 2, 3] ∧
    (∀ c, retryableStatus c = false → oracle 1 = AttemptOutcome.status c →
      upload oracle = ⟨Except.error (UploadError.status c), 1, []⟩) ∧
    (∀ c, retryableStatus c = false → retryFail (oracle 1) = true →
      oracle 2 = AttemptOutcome.status c →
      upload oracle = ⟨Except.error (UploadError.status c), 2, [3 / 2]⟩) ∧
    (retryFail (oracle 1) = true → retryFail (oracle 2) = true →
      ∀ e, failErr (oracle 3) = some e →
        upload oracle = ⟨Except.error e, 3, [(3 : ℚ) / 2, 3]⟩) := by
  have hb1 : ((3 : ℚ) / 2) * 2 ^ (1 - 1) = 3 / 2 := by norm_num
  have hb2 : ((3 : ℚ) / 2) * 2 ^ (2 - 1) = 3 := by norm_num
  refine ⟨?_, ?_, ?_, ?_, ?_⟩
  · cases h1 : oracle 1 with
    | success url => simp [upload, uploadLoop, h1, _UPLOAD_ATTEMPTS]
    | network =>
        cases h2 : oracle 2 with
        | success url => simp [upload, uploadLoop, h1, h2, _UPLOAD_ATTEMPTS]
        | network =>
            cases h3 : oracle 3 with
            | success url => simp [upload, uploadLoop, h1, h2, h3, _UPLOAD_ATTEMPTS]
            | network => simp [upload, uploadLoop, h1, h2, h3, _UPLOAD_ATTEMPTS]
            | status c =>
                by_cases hc : retryableStatus c <;>
                  simp [upload, uploadLoop, h1, h2, h3, hc, _UPLOAD_ATTEMPTS]
        | status c =>
            by_cases hc : retryableStatus c
            · cases h3 : oracle 3 with
              | success url => simp [upload, uploadLoop, h1, h2, h3, hc, _UPLOAD_ATTEMPTS]
              | network => simp [upload, uploadLoop, h1, h2, h3, hc, _UPLOAD_ATTEMPTS]
              | status c' =>
                  by_cases hc' : retryableStatus c' <;>
                    simp [upload, uploadLoop, h1, h2, h3, hc, hc', _UPLOAD_ATTEMPTS]
            · simp [upload, uploadLoop, h1, h2, hc, _UPLOAD_ATTEMPTS]
    | status c0 =>
        by_cases hc0 : retryableStatus c0
        · cases h2 : oracle 2 with
          | success url => simp [upload, uploadLoop, h1, h2, hc0, _UPLOAD_ATTEMPTS]
          | network =>
              cases h3 : oracle 3 with
              | success url => simp [upload, uploadLoop, h1, h2, h3, hc0, _UPLOAD_ATTEMPTS]
              | network => simp [upload, uploadLoop, h1, h2, h3, hc0, _UPLOAD_ATTEMPTS]
              | status c =>
                  by_cases hc : retryableStatus c <;>
                    simp [upload, uploadLoop, h1, h2, h3, hc0, hc, _UPLOAD_ATTEMPTS]
          | status c =>
              by_cases hc : retryableStatus c
              · cases h3 : oracle 3 with
                | success url => simp [upload, uploadLoop, h1, h2, h3, hc0, hc, _UPLOAD_ATTEMPTS]
                | network => simp [upload, uploadLoop, h1, h2, h3, hc0, hc, _UPLOAD_ATTEMPTS]
                | status c' =>
                    by_cases hc' : retryableStatus c' <;>
                      simp [upload, uploadLoop, h1, h2, h3, hc0, hc, hc', _UPLOAD_ATTEMPTS]
              · simp [upload, uploadLoop, h1, h2, hc0, hc, _UPLOAD_ATTEMPTS]
        · simp [upload, uploadLoop, h1, hc0, _UPLOAD_ATTEMPTS]
  · cases h1 : oracle 1 with
    | success url =>
        simp [upload, uploadLoop, h1, _UPLOAD_ATTEMPTS]
    | network =>
        cases h2 : oracle 2 with
        | success url =>
            refine List.IsPrefix.trans ?_ (⟨[3], by norm_num⟩ : [(3 : ℚ) / 2] <+: [3 / 2, 3])
            simp [upload, uploadLoop, h1, h2, _UPLOAD_ATTEMPTS, hb1]
        | network =>
            cases h3 : oracle 3 with
            | success url =>
                simp [upload, uploadLoop, h1, h2, h3, _UPLOAD_ATTEMPTS, hb1, hb2]
            | network =>
                simp [upload, uploadLoop, h1, h2, h3, _UPLOAD_ATTEMPTS, hb1, hb2]
            | status c =>
                by_cases hc : retryableStatus c <;>
                  simp [upload, uploadLoop, h1, h2, h3, hc, _UPLOAD_ATTEMPTS, hb1, hb2]
        | status c =>
            by_cases hc : retryableStatus c
            · cases h3 : oracle 3 with
              | success url =>
                  simp [upload, uploadLoop, h1, h2, h3, hc, _UPLOAD_ATTEMPTS, hb1, hb2]
              | network =>
                  simp [upload, uploadLoop, h1, h2, h3, hc, _UPLOAD_ATTEMPTS, hb1, hb2]
              | status c' =>
                  by_cases hc' : retryableStatus c' <;>
                    simp [upload, uploadLoop, h1, h2, h3, hc, hc', _UPLOAD_ATTEMPTS, hb1, hb2]
            · refine List.IsPrefix.trans ?_ (⟨[3], by norm_num⟩ : [(3 : ℚ) / 2] <+: [3 / 2, 3])
              simp [upload, uploadLoop, h1, h2, hc, _UPLOAD_ATTEMPTS, hb1]
    | status c0 =>
        by_cases hc0 : retryableStatus c0
        · cases h2 : oracle 2 with
          | success url =>
              refine List.IsPrefix.trans ?_ (⟨[3], by norm_num⟩ : [(3 : ℚ) / 2] <+: [3 / 2, 3])
              simp [upload, uploadLoop, h1, h2, hc0, _UPLOAD_ATTEMPTS, hb1]
          | network =>
              cases h3 : oracle 3 with
              | success url =>
                  simp [upload, uploadLoop, h1, h2, h3, hc0, _UPLOAD_ATTEMPTS, hb1, hb2]
              | network =>
                  simp [upload, uploadLoop, h1, h2, h3, hc0, _UPLOAD_ATTEMPTS, hb1, hb2]
              | status c =>
                  by_cases hc : retryableStatus c <;>
                    simp [upload, uploadLoop, h1, h2, h3, hc0, hc, _UPLOAD_ATTEMPTS, hb1, hb2]
          | status c =>
              by_cases hc : retryableStatus c
              · cases h3 : oracle 3 with
                | success url =>
                    simp [upload, uploadLoop, h1, h2, h3, hc0, hc, _UPLOAD_ATTEMPTS, hb1, hb2]
                | network =>
                    simp [upload, uploadLoop, h1, h2, h3, hc0, hc, _UPLOAD_ATTEMPTS, hb1, hb2]
                | status c' =>
                    by_cases hc' : retryableStatus c' <;>
                      simp [upload, uploadLoop, h1, h2, h3, hc0, hc, hc', _UPLOAD_ATTEMPTS, hb1, hb2]
              · refine List.IsPrefix.trans ?_ (⟨[3], by norm_num⟩ : [(3 : ℚ) / 2] <+: [3 / 2, 3])
                simp [upload, uploadLoop, h1, h2, hc0, hc, _UPLOAD_ATTEMPTS, hb1]
        · simp [upload, uploadLoop, h1, hc0, _UPLOAD_ATTEMPTS]
  · intro c hc h1
    simp [upload, uploadLoop, h1, hc, _UPLOAD_ATTEMPTS]
  · intro c hc hf1 h2
    cases h1 : oracle 1 with
    | success url => rw [h1] at hf1; simp [retryFail] at hf1
    | network =>
        simp [upload, uploadLoop, h1, h2, hc, _UPLOAD_ATTEMPTS, hb1]
    | status c0 =>
        rw [h1] at hf1
        simp only [retryFail] at hf1
        simp [upload, uploadLoop, h1, h2, hc, hf1, _UPLOAD_ATTEMPTS, hb1]
  · intro hf1 hf2 e he
    cases h1 : oracle 1 with
    | success url => rw [h1] at hf1; simp [retryFail] at hf1
    | network =>
        cases h2 : oracle 2 with
        | success url => rw [h2] at hf2; simp [retryFail] at hf2
        | network =>
            cases h3 : oracle 3 with
            | success url => rw [h3] at he; simp [failErr] at he
            | network =>
                rw [h3] at he
                simp only [failErr, Option.some.injEq] at he
                subst he
                simp [upload, uploadLoop, h1, h2, h3, _UPLOAD_ATTEMPTS, hb1, hb2]
            | status c =>
                rw [h3] at he
                simp only [failErr, Option.some.injEq] at he
                subst he
                simp [upload, uploadLoop, h1, h2, h3, _UPLOAD_ATTEMPTS, hb1, hb2]
        | status c2 =>
            rw [h2] at hf2
            simp only [retryFail] at hf2
            cases h3 : oracle 3 with
            | success url => rw [h3] at he; simp [failErr] at he
            | network =>
                rw [h3] at he
                simp only [failErr, Option.some.injEq] at he
                subst he
                simp [upload, uploadLoop, h1, h2, h3, hf2, _UPLOAD_ATTEMPTS, hb1, hb2]
            | status c =>
                rw [h3] at he
                simp only [failErr, Option.some.injEq] at he
                subst he
                simp [upload, uploadLoop, h1, h2, h3, hf2, _UPLOAD_ATTEMPTS, hb1, hb2]
    | status c1 =>
        rw [h1] at hf1
        simp only [retryFail] at hf1
        cases h2 : oracle 2 with
        | success url => rw [h2] at hf2; simp [retryFail] at hf2
        | network =>
            cases h3 : oracle 3 with
            | success url => rw [h3] at he; simp [failErr] at he
            | network =>
                rw [h3] at he
                simp only [failErr, Option.some.injEq] at he
                subst he
                simp [upload, uploadLoop, h1, h2, h3, hf1, _UPLOAD_ATTEMPTS, hb1, hb2]
            | status c =>
                rw [h3] at he
                simp only [failErr, Option.some.injEq] at he
                subst he
                simp [upload, uploadLoop, h1, h2, h3, hf1, _UPLOAD_ATTEMPTS, hb1, hb2]
        | status c2 =>
            rw [h2] at hf2
            simp only [retryFail] at hf2
            cases h3 : oracle 3 with
            | success url => rw [h3] at he; simp [failErr] at he
            | network =>
                rw [h3] at he
                simp only [failErr, Option.some.injEq] at he
                subst he
                simp [upload, uploadLoop, h1, h2, h3, hf1, hf2, _UPLOAD_ATTEMPTS, hb1, hb2]
            | status c =>
                rw [h3] at he
                simp only [failErr, Option.some.injEq] at he
                subst he
                simp [upload, uploadLoop, h1, h2, h3, hf1, hf2, _UPLOAD_ATTEMPTS, hb1, hb2]

/-- A run whose three attempts answer 503, network error, 500. -/
def uploadOracle₀ : Nat → AttemptOutcome := fun n =>
  if n = 1 then AttemptOutcome.status 503
  else if n = 2 then AttemptOutcome.network
  else AttemptOutcome.status 500

/-- Witness for C5: the 503 / network / 500 run exhausts the three attempts,
sleeps 1.5 s then 3 s, and surfaces the last error (HTTP 500). -/
theorem upload_retry_policy_witness :
    upload uploadOracle₀ =
      ⟨Except.error (UploadError.status 500), 3, [(3 : ℚ) / 2, 3]⟩ :=
  (upload_retry_policy uploadOracle₀).2.2.2.2 (by decide) (by decide)
    (UploadError.status 500) (by decide)

/-- The record `compute_sync_offset` returns (src/worker/tasks/sync.py):
offset in seconds, confidence in [0, 1], and a method tag. -/
structure SyncResult where
  offset_seconds : ℚ
  confidence : ℚ
  method : String
deriving DecidableEq

/-- The result dict of `analyze_performance` as far as phase 4 shapes it: the
payload produced by `do_generate_feedback` plus the raw `auto_sync` record
attached afterwards. -/
structure PipelineResults (R : Type) where
  payload : R
  auto_sync : Option SyncResult

/-- Phase 4 of `analyze_performance` (src/worker/tasks/pipeline.py):
`effective_offset = auto_offset if sync_confidence > 0.3 else 0.0`, feed it to
`do_generate_feedback` (abstracted as `gen`, which receives the
`offset_seconds` argument), then attach the raw sync record as
`results["auto_sync"]`. -/
def phase4_scoring {R : Type} (sync_result : SyncResult) (gen : ℚ → R) :
    PipelineResults R :=
  let effective_offset :=
    if 3 / 10 < sync_result.confidence then sync_result.offset_seconds else 0
  { payload := gen effective_offset, auto_sync := some sync_result }

/-- Claim C6: the scoring step receives the detected offset exactly when the
sync confidence is strictly above 0.3, receives offset 0 otherwise, and the
raw sync record is attached to the result bundle in both cases. -/
theorem phase4_offset_gating (R : Type) (s : SyncResult) (gen : ℚ → R) :
    ((3 : ℚ) / 10 < s.confidence →
      phase4_scoring s gen = ⟨gen s.offset_seconds, some s⟩) ∧
    (s.confidence ≤ (3 : ℚ) / 10 →
      phase4_scoring s gen = ⟨gen 0, some s⟩) ∧
    (phase4_scoring s gen).auto_sync = some s := by
  refine ⟨?_, ?_, rfl⟩
  · intro h
    simp [phase4_scoring, h]
  · intro h
    simp [phase4_scoring, not_lt.mpr h]

/-- Witness for C6 at a concrete sync record with confidence 0.5 (above the
threshold) and at one with confidence 0.2 (below it), observing the offset
through the identity scoring oracle. -/
theorem phase4_offset_gating_witness :
    phase4_scoring ⟨(5 : ℚ) / 2, 1 / 2, "cross_correlation"⟩ (fun q => q) =
      ⟨(5 : ℚ) / 2, some ⟨(5 : ℚ) / 2, 1 / 2, "cross_correlation"⟩⟩ ∧
    phase4_scoring ⟨(5 : ℚ) / 2, 1 / 5, "cross_correlation"⟩ (fun q => q) =
      ⟨(0 : ℚ), some ⟨(5 : ℚ) / 2, 1 / 5, "cross_correlation"⟩⟩ :=
  ⟨(phase4_offset_gating ℚ ⟨(5 : ℚ) / 2, 1 / 2, "cross_correlation"⟩ (fun q => q)).1
      (by norm_num),
   (phase4_offset_gating ℚ ⟨(5 : ℚ) / 2, 1 / 5, "cross_correlation"⟩ (fun q => q)).2.1
      (by norm_num)⟩

/-- Mean of a rational sequence (`np.mean`; division by zero yields 0 for the
empty sequence, which never arises for real envelopes). -/
def meanQ (xs : List ℚ) : ℚ := xs.sum / xs.length

/-- Variance of a rational sequence, the square of `np.std`. -/
def varQ (xs : List ℚ) : ℚ :=
  ((xs.map (fun x => (x - meanQ xs) ^ 2)).sum) / xs.length

/-- The record returned by the near-silence guard of `compute_sync_offset`. -/
def zeroSyncResult : SyncResult := ⟨0, 0, "cross_correlation"⟩

/-- `compute_sync_offset` (src/worker/tasks/sync.py) from the point where the
amplitude envelopes exist.  The source computes `user_env.std()` and
`ref_env.std()` and returns the zero record when either is below `1e-8`;
since `std = sqrt(var)` and both sides are nonnegative, `std < 1e-8` is
phrased here as `var < (1e-8)^2` to stay within ℚ.  Only past the guard does
it normalise each envelope by dividing by its standard deviation and
cross-correlate; that float pipeline is abstracted as `rest`, consulted
exclusively on the non-silent branch. -/
def compute_sync_offset (rest : List ℚ → List ℚ → SyncResult)
    (user_env ref_env : List ℚ) : SyncResult :=
  if varQ user_env < (1 / 100000000) ^ 2 ∨ varQ ref_env < (1 / 100000000) ^ 2 then
    zeroSyncResult
  else
    rest user_env ref_env

/-- Claim C10: whenever either envelope is near-silent (standard deviation
below 1e-8, i.e. variance below 1e-16), `compute_sync_offset` returns offset
0.0, confidence 0.0, method `cross_correlation` — for every possible
downstream computation `rest`, so the normalising divisions by the envelope
standard deviations are never reached. -/
theorem compute_sync_offset_silent_guard (rest : List ℚ → List ℚ → SyncResult)
    (user_env ref_env : List ℚ)
    (h : varQ user_env < (1 / 100000000) ^ 2 ∨ varQ ref_env < (1 / 100000000) ^ 2) :
    compute_sync_offset rest user_env ref_env = zeroSyncResult := by
  unfold compute_sync_offset
  rw [if_pos h]

/-- A downstream stage that would be observable if it were ever consulted. -/
def restProbe : List ℚ → List ℚ → SyncResult := fun _ _ => ⟨1, 1, "probe"⟩

/-- Witness for C10: a flat (all-zero) user envelope has variance 0, so the
guard fires and the probe stage is never consulted. -/
theorem compute_sync_offset_silent_guard_witness :
    compute_sync_offset restProbe [0, 0, 0] [1, 2, 3] = zeroSyncResult :=
  compute_sync_offset_silent_guard restProbe [0, 0, 0] [1, 2, 3]
    (Or.inl (by norm_num [varQ, meanQ]))

/-- `_session_storage_paths` (src/worker/tasks/cleanup.py): the six storage
paths that belong to a session. -/
def _session_storage_paths (session_id : String) : List String :=
  ["sessions/" ++ session_id ++ "/user_recording.webm",
   "sessions/" ++ session_id ++ "/user_recording.wav",
   "sessions/" ++ session_id ++ "_user/vocals.wav",
   "sessions/" ++ session_id ++ "_user/instrumentals.wav",
   "sessions/" ++ session_id ++ "_ref/vocals.wav",
   "sessions/" ++ session_id ++ "_ref/instrumentals.wav"]

/-- A parsed `session:*` value as the cleanup task reads it:
`session_data.get("created_at", 0)` coerced by `float(...)` (0 when the field
is missing), and `session_data.get("session_id")`. -/
structure CleanupSession where
  created_at : ℚ
  session_id_field : Option String
deriving DecidableEq

/-- `session_data.get("session_id") or key.replace("session:", "")`:
the stored id unless it is missing or empty (both falsy), in which case the
id is recovered from the Redis key. -/
def cleanupSessionId (key : String) (s : CleanupSession) : String :=
  if s.session_id_field.getD "" = "" then key.replace "session:" ""
  else s.session_id_field.getD ""

/-- The storage-deletion loop of `cleanup_session_files`
(src/worker/tasks/cleanup.py): scan the `session:*` entries, skip any whose
`created_at` is falsy or younger than `SESSION_MAX_AGE = 7200` seconds, and
delete the six session paths of the rest.  The returned list is the sequence
of deleted storage paths. -/
def cleanup_session_files (now : ℚ) :
    List (String × CleanupSession) → List String
  | [] => []
  | (key, s) :: rest =>
      (if s.created_at = 0 ∨ now - s.created_at < 7200 then []
       else _session_storage_paths (cleanupSessionId key s))
        ++ cleanup_session_files now rest

/-- Claim C8 counterexample: a session created exactly 7200 s (exactly two
hours) ago — not *more* than two hours — still has all six of its paths
deleted, because the code skips only sessions strictly younger than 7200 s. -/
theorem cleanup_age_boundary_counterexample :
    cleanup_session_files 7300 [("session:abc", ⟨100, some "abc"⟩)] =
      _session_storage_paths "abc" ∧
    ¬ ((7200 : ℚ) < 7300 - 100) := by
  constructor
  · simp only [cleanup_session_files]
    rw [if_neg (by norm_num)]
    have hid : cleanupSessionId "session:abc" ⟨100, some "abc"⟩ = "abc" := by
      simp [cleanupSessionId]
    rw [hid]
    simp
  · norm_num

theorem cleanup_mem_iff (now : ℚ) (entries : List (String × CleanupSession))
    (p : String) :
    p ∈ cleanup_session_files now entries ↔
      ∃ key s, (key, s) ∈ entries ∧ s.created_at ≠ 0 ∧
        7200 ≤ now - s.created_at ∧
        p ∈ _session_storage_paths (cleanupSessionId key s) := by
  induction entries with
  | nil => simp [cleanup_session_files]
  | cons hd rest ih =>
      obtain ⟨key, s⟩ := hd
      by_cases hskip : s.created_at = 0 ∨ now - s.created_at < 7200
      · simp only [cleanup_session_files, if_pos hskip, List.nil_append]
        rw [ih]
        constructor
        · rintro ⟨k', s', hmem, h0, hage, hp⟩
          exact ⟨k', s', List.mem_cons_of_mem _ hmem, h0, hage, hp⟩
        · rintro ⟨k', s', hmem, h0, hage, hp⟩
          rcases List.mem_cons.mp hmem with heq | hmem'
          · injection heq with hk hs
            subst hk
            subst hs
            rcases hskip with h | h
            · exact absurd h h0
            · exact absurd hage (not_le.mpr h)
          · exact ⟨k', s', hmem', h0, hage, hp⟩
      · have hcond := hskip
        push_neg at hskip
        simp only [cleanup_session_files, if_neg hcond, List.mem_append]
        rw [ih]
        constructor
        · rintro (hp | ⟨k', s', hmem, h0, hage, hpp⟩)
          · exact ⟨key, s, List.mem_cons_self _ _, hskip.1, hskip.2, hp⟩
          · exact ⟨k', s', List.mem_cons_of_mem _ hmem, h0, hage, hpp⟩
        · rintro ⟨k', s', hmem, h0, hage, hpp⟩
          rcases List.mem_cons.mp hmem with heq | hmem'
          · injection heq with hk hs
            subst hk
            subst hs
            exact Or.inl hpp
          · exact Or.inr ⟨k', s', hmem', h0, hage, hpp⟩

theorem session_paths_not_cache (sid p : String)
    (hp : p ∈ _session_storage_paths sid) :
    ¬ ("cache/".data <+: p.data) := by
  intro hpre
  have hc : "cache/".data = 'c' :: "ache/".data := rfl
  have hs : "sessions/".data = 's' :: "essions/".data := rfl
  simp only [_session_storage_paths, List.mem_cons, List.not_mem_nil, or_false] at hp
  rcases hp with rfl | rfl | rfl | rfl | rfl | rfl <;>
    · obtain ⟨t, ht⟩ := hpre
      rw [String.data_append, String.data_append, hc, hs] at ht
      simp at ht

/-- Claim C8 (amended): the cleanup task deletes a path exactly when some
scanned session has a non-falsy creation timestamp **at least** 7200 s in the
past (the boundary is inclusive, not strict) and the path is one of that
session's six derived paths; no deleted path ever lies under the
per-fingerprint `cache/` prefix. -/
theorem cleanup_reaper_spec (now : ℚ) (entries : List (String × CleanupSession)) :
    (∀ p, p ∈ cleanup_session_files now entries ↔
      ∃ key s, (key, s) ∈ entries ∧ s.created_at ≠ 0 ∧
        7200 ≤ now - s.created_at ∧
        p ∈ _session_storage_paths (cleanupSessionId key s)) ∧
    (∀ p ∈ cleanup_session_files now entries, ¬ ("cache/".data <+: p.data)) := by
  refine ⟨cleanup_mem_iff now entries, ?_⟩
  intro p hp
  obtain ⟨k, s, _, _, _, hmem⟩ := (cleanup_mem_iff now entries p).mp hp
  exact session_paths_not_cache _ p hmem

/-- Witness for C8: with one stale session (19000 s old) and one fresh
session (1000 s old), the stale session's user recording path is deleted. -/
theorem cleanup_reaper_spec_witness :
    "sessions/old1/user_recording.webm" ∈
      cleanup_session_files 20000
        [("session:old1", ⟨1000, some "old1"⟩), ("session:new1", ⟨19000, some "new1"⟩)] := by
  refine ((cleanup_reaper_spec 20000
    [("session:old1", ⟨1000, some "old1"⟩), ("session:new1", ⟨19000, some "new1"⟩)]).1
    "sessions/old1/user_recording.webm").mpr
    ⟨"session:old1", ⟨1000, some "old1"⟩, List.mem_cons_self _ _, by norm_num, by norm_num, ?_⟩
  have hid : cleanupSessionId "session:old1" ⟨1000, some "old1"⟩ = "old1" := by
    simp [cleanupSessionId]
  rw [hid]
  decide

/-- Celery `AsyncResult` state as the SSE router reads it: `status` plus the
`info` / `result` payload relevant to each state. -/
inductive TaskStatus where
  | pending
  | progress (step : String) (pct : ℤ) (detail : String)
  | success (result : String)
  | failure (error : String)
deriving DecidableEq

def taskStatusName : TaskStatus → String
  | .pending => "PENDING"
  | .progress _ _ _ => "PROGRESS"
  | .success _ => "SUCCESS"
  | .failure _ => "FAILURE"

/-- What one 500 ms poll can observe: the session JSON under `session:{sid}`,
the two dedicated keys `session:{sid}:tracks_ready_at` and
`session:{sid}:user_tracks_ready_at` written by the worker pipeline
(src/worker/tasks/pipeline.py), and the Celery task state by task id. -/
structure RedisSnapshot where
  session : Option (List (String × String))
  tracks_ready_key : Option String
  user_tracks_ready_key : Option String
  task : String → TaskStatus

/-- One server-sent event: its `event:` name and its JSON data object with
values rendered as strings (absent values as `""`). -/
structure SseEvent where
  name : String
  data : List (String × String)
deriving DecidableEq

/-- The loop-local change-detection state of `_session_event_generator`
(src/backend/app/routers/sse.py). -/
structure SseLoopState where
  last_ref_status : Option String
  last_analysis_status : Option String
  last_progress_step : Option String
  last_tracks_ready : Option String
  heartbeat_timer : ℚ
  elapsed : ℚ
deriving DecidableEq

def initSseState : SseLoopState := ⟨none, none, none, none, 0, 0⟩

/-- The `session_status` section: emit when `reference_status` differs from
the remembered value (both `None` initially, so an absent field emits
nothing until it changes). -/
def sseSessionStatusStep (sid : String) (session : List (String × String))
    (st : SseLoopState) : List SseEvent × SseLoopState :=
  let current_ref_status := alookup session "reference_status"
  if current_ref_status ≠ st.last_ref_status then
    ([⟨"session_status",
        [("session_id", sid),
         ("status", (alookup session "status").getD "unknown"),
         ("reference_status", current_ref_status.getD ""),
         ("reference_ready", if current_ref_status = some "ready" then "true" else "false"),
         ("track_name", (alookup session "track_name").getD ""),
         ("artist_name", (alookup session "artist_name").getD ""),
         ("error", (alookup session "error").getD "")]⟩],
     { st with last_ref_status := current_ref_status })
  else ([], st)

/-- The `tracks_ready` section: this generator version reads the
`tracks_ready_at` **field of the session JSON** (not the dedicated key) and
emits on a truthy changed value. -/
def sseTracksReadyStep (sid : String) (session : List (String × String))
    (st : SseLoopState) : List SseEvent × SseLoopState :=
  match alookup session "tracks_ready_at" with
  | some v =>
      if v ≠ "" ∧ some v ≠ st.last_tracks_ready then
        ([⟨"tracks_ready",
            [("session_id", sid), ("source", "ref"), ("tracks", "vocals,instrumentals")]⟩],
         { st with last_tracks_ready := some v })
      else ([], st)
  | none => ([], st)

/-- The progress sub-section: when the task is in `PROGRESS` and the step
name changed, emit `analysis_progress`. -/
def sseProgressStep (sid task_id : String) (status : TaskStatus)
    (st : SseLoopState) : List SseEvent × SseLoopState :=
  match status with
  | .progress step pct detail =>
      if some step ≠ st.last_progress_step then
        ([⟨"analysis_progress",
            [("session_id", sid), ("task_id", task_id), ("step", step),
             ("progress", toString pct), ("detail", detail)]⟩],
         { st with last_progress_step := some step })
      else ([], st)
  | _ => ([], st)

/-- The status-transition sub-section: on a changed task status emit
`analysis_complete` (and stop) on `SUCCESS`, `analysis_error` (and stop) on
`FAILURE`.  The write-back of the terminal result into the session record is
outside this model of the emitted stream. -/
def sseStatusTransitionStep (sid task_id : String) (status : TaskStatus)
    (st : SseLoopState) : List SseEvent × SseLoopState × Bool :=
  if some (taskStatusName status) ≠ st.last_analysis_status then
    let stn := { st with last_analysis_status := some (taskStatusName status) }
    match status with
    | .success res =>
        ([⟨"analysis_complete",
            [("session_id", sid), ("task_id", task_id), ("results", res)]⟩], stn, true)
    | .failure err =>
        ([⟨"analysis_error",
            [("session_id", sid), ("task_id", task_id), ("error", err)]⟩], stn, true)
    | _ => ([], stn, false)
  else ([], st, false)

/-- The analysis-task section: only entered when the session carries a truthy
`analysis_task_id`. -/
def sseAnalysisStep (sid : String) (snap : RedisSnapshot)
    (session : List (String × String)) (st : SseLoopState) :
    List SseEvent × SseLoopState × Bool :=
  match alookup session "analysis_task_id" with
  | none => ([], st, false)
  | some task_id =>
      if task_id = "" then ([], st, false)
      else
        let status := snap.task task_id
        let pr := sseProgressStep sid task_id status st
        let tr := sseStatusTransitionStep sid task_id status pr.2
        (pr.1 ++ tr.1, tr.2.1, tr.2.2)

/-- The heartbeat section: the timer advances by the 500 ms poll interval and
a `heartbeat` with the elapsed seconds fires every 15 s. -/
def sseHeartbeatStep (st : SseLoopState) : List SseEvent × SseLoopState :=
  let timer := st.heartbeat_timer + 1 / 2
  if 15 ≤ timer then
    ([⟨"heartbeat", [("elapsed", toString (round st.elapsed))]⟩],
     { st with heartbeat_timer := 0 })
  else ([], { st with heartbeat_timer := timer })

/-- One iteration of the polling loop of `_session_event_generator`: missing
session ⇒ emit `error` and close; otherwise run the four sections in source
order, the heartbeat only when no terminal event closed the stream.  Note
that the loop body consults only `snap.session` and `snap.task`: neither
dedicated key is ever read. -/
def pollOnce (sid : String) (snap : RedisSnapshot) (st : SseLoopState) :
    List SseEvent × SseLoopState × Bool :=
  match snap.session with
  | none => ([⟨"error", [("message", "Session not found")]⟩], st, true)
  | some session =>
      let r1 := sseSessionStatusStep sid session st
      let r2 := sseTracksReadyStep sid session r1.2
      let r3 := sseAnalysisStep sid snap session r2.2
      if r3.2.2 then (r1.1 ++ r2.1 ++ r3.1, r3.2.1, true)
      else
        let r4 := sseHeartbeatStep r3.2.1
        (r1.1 ++ r2.1 ++ r3.1 ++ r4.1, r4.2, false)

/-- The polling loop over the sequence of Redis snapshots the stream gets to
observe (one per 500 ms tick; the 10-minute `MAX_DURATION` cap bounds the
sequence at 1200 ticks, after which the `timeout` event closes the
stream). -/
def sseRun (sid : String) : SseLoopState → List RedisSnapshot → List SseEvent
  | _, [] => [⟨"timeout", [("message", "SSE connection timed out after 10 minutes")]⟩]
  | st, snap :: rest =>
      let r := pollOnce sid snap st
      if r.2.2 then r.1
      else r.1 ++ sseRun sid { r.2.1 with elapsed := r.2.1.elapsed + 1 / 2 } rest

/-- `_session_event_generator` (src/backend/app/routers/sse.py): `connected`
first, then the polling loop. -/
def _session_event_generator (sid : String) (snaps : List RedisSnapshot) :
    List SseEvent :=
  ⟨"connected", [("session_id", sid)]⟩ :: sseRun sid initSseState snaps

theorem sseSessionStatusStep_names (sid : String) (session : List (String × String))
    (st : SseLoopState) :
    ∀ e ∈ (sseSessionStatusStep sid session st).1, e.name = "session_status" := by
  intro e he
  unfold sseSessionStatusStep at he
  simp only [] at he
  split at he <;> simp_all

theorem sseTracksReadyStep_names (sid : String) (session : List (String × String))
    (st : SseLoopState) :
    ∀ e ∈ (sseTracksReadyStep sid session st).1, e.name = "tracks_ready" := by
  intro e he
  unfold sseTracksReadyStep at he
  split at he <;> (try split at he) <;> simp_all

theorem sseProgressStep_names (sid task_id : String) (status : TaskStatus)
    (st : SseLoopState) :
    ∀ e ∈ (sseProgressStep sid task_id status st).1, e.name = "analysis_progress" := by
  intro e he
  unfold sseProgressStep at he
  split at he <;> (try split at he) <;> simp_all

theorem sseStatusTransitionStep_names (sid task_id : String) (status : TaskStatus)
    (st : SseLoopState) :
    ∀ e ∈ (sseStatusTransitionStep sid task_id status st).1,
      e.name = "analysis_complete" ∨ e.name = "analysis_error" := by
  intro e he
  unfold sseStatusTransitionStep at he
  split at he <;> (try split at he) <;> simp_all

theorem sseAnalysisStep_names (sid : String) (snap : RedisSnapshot)
    (session : List (String × String)) (st : SseLoopState) :
    ∀ e ∈ (sseAnalysisStep sid snap session st).1,
      e.name = "analysis_progress" ∨ e.name = "analysis_complete" ∨
        e.name = "analysis_error" := by
  intro e he
  unfold sseAnalysisStep at he
  split at he
  · simp at he
  · split at he
    · simp at he
    · simp only [] at he
      rcases List.mem_append.mp he with h | h
      · exact Or.inl (sseProgressStep_names _ _ _ _ e h)
      · exact Or.inr (sseStatusTransitionStep_names _ _ _ _ e h)

theorem sseHeartbeatStep_names (st : SseLoopState) :
    ∀ e ∈ (sseHeartbeatStep st).1, e.name = "heartbeat" := by
  intro e he
  unfold sseHeartbeatStep at he
  simp only [] at he
  split at he <;> simp_all

theorem pollOnce_not_user_tracks_ready (sid : String) (snap : RedisSnapshot)
    (st : SseLoopState) :
    ∀ e ∈ (pollOnce sid snap st).1, e.name ≠ "user_tracks_ready" := by
  intro e he
  unfold pollOnce at he
  split at he
  · simp_all
  · simp only [] at he
    split at he
    · simp only [] at he
      rcases List.mem_append.mp he with h12 | h3
      · rcases List.mem_append.mp h12 with h1 | h2
        · rw [sseSessionStatusStep_names _ _ _ e h1]
          decide
        · rw [sseTracksReadyStep_names _ _ _ e h2]
          decide
      · rcases sseAnalysisStep_names _ _ _ _ e h3 with h | h | h <;> (rw [h]; decide)
    · simp only [] at he
      rcases List.mem_append.mp he with h123 | h4
      · rcases List.mem_append.mp h123 with h12 | h3
        · rcases List.mem_append.mp h12 with h1 | h2
          · rw [sseSessionStatusStep_names _ _ _ e h1]
            decide
          · rw [sseTracksReadyStep_names _ _ _ e h2]
            decide
        · rcases sseAnalysisStep_names _ _ _ _ e h3 with h | h | h <;> (rw [h]; decide)
      · rw [sseHeartbeatStep_names _ e h4]
        decide

theorem sseRun_not_user_tracks_ready (sid : String) :
    ∀ (snaps : List RedisSnapshot) (st : SseLoopState),
      "user_tracks_ready" ∉ (sseRun sid st snaps).map SseEvent.name := by
  intro snaps
  induction snaps with
  | nil =>
      intro st
      simp [sseRun]
  | cons snap rest ih =>
      intro st
      simp only [sseRun]
      split
      · intro h
        rcases List.mem_map.mp h with ⟨e, he, hname⟩
        exact pollOnce_not_user_tracks_ready sid snap st e he hname
      · intro h
        rw [List.map_append] at h
        rcases List.mem_append.mp h with h | h
        · rcases List.mem_map.mp h with ⟨e, he, hname⟩
          exact pollOnce_not_user_tracks_ready sid snap st e he hname
        · exact ih _ h

/-- Claim C2 refutation: over every observation sequence — including ones
where the dedicated `session:{sid}:user_tracks_ready_at` key is set — the
event-stream generator never emits a `user_tracks_ready` event: its loop body
never reads that key and has no such emission, so the stream always closes
without it. -/
theorem sse_never_emits_user_tracks_ready (sid : String)
    (snaps : List RedisSnapshot) :
    "user_tracks_ready" ∉ (_session_event_generator sid snaps).map SseEvent.name := by
  simp only [_session_event_generator, List.map_cons]
  intro h
  rcases List.mem_cons.mp h with h1 | h2
  · exact absurd h1 (by decide)
  · exact sseRun_not_user_tracks_ready sid snaps initSseState h2

/-- A snapshot in which the pipeline has set the user-tracks-ready dedicated
key (as `_notify_user_tracks_ready` does after uploading the user stems). -/
def userReadySnap : RedisSnapshot where
  session := some [("status", "analysing"), ("analysis_task_id", "t1")]
  tracks_ready_key := some "1700000000.0"
  user_tracks_ready_key := some "1700000000.5"
  task := fun _ => TaskStatus.progress "separating_user" 10 "Isolation de ta voix..."

/-- Witness evaluating the generator at the failing input: even with the
dedicated key set in every observed snapshot, no `user_tracks_ready` event is
ever emitted before the stream ends. -/
theorem sse_never_emits_user_tracks_ready_witness :
    "user_tracks_ready" ∉
      (_session_event_generator "s1" [userReadySnap, userReadySnap]).map SseEvent.name :=
  sse_never_emits_user_tracks_ready "s1" [userReadySnap, userReadySnap]
